import Mathlib

/-!
# PastaPass wallet stamp engine — verification of the specification

Shallow embedding of the canonical server variant of `src/server/index.js`
(the "Turso + cooldown" variant: routes `/api/signup` and `/api/stamps/add`,
helpers `getCustomerByIdentifier`, `createCustomer`, `getWallet`,
`createWallet`, `updateWallet`, `isValidStaticToken`).

Modelling conventions:
* SQL rows become Lean structures; the two tables become lists kept in
  insertion (rowid) order, so `SELECT ... LIMIT 1` is `List.find?`.
* Timestamps are epoch milliseconds (`Nat`).  The source stores ISO-8601
  strings and reads them back through `Date.parse`; since an ISO string is
  truthy exactly when present, an `Option Nat` mirrors the JS
  `value ? Date.parse(value) : 0` and `value || null` idioms faithfully.
* `customers.created_at` is written on insert and projected away by every
  `SELECT` the core performs, so it is omitted from the embedded record.
* JS request fields are `Option String`; a missing or empty string is falsy.
* `Date.now()` and `new Date().toISOString()` inside one request are the
  same instant `now : Nat`.
-/

/-- A row of the `customers` table (public fields: the ones every SELECT
in the core projects). -/
structure Customer where
  id : String
  name : Option String
  email : Option String
  phone : Option String
deriving DecidableEq, Repr

/-- A row of the `wallets` table. -/
structure Wallet where
  customer_id : String
  stamps : Nat
  last_redeemed_at : Option Nat
  last_stamped_at : Option Nat
deriving DecidableEq, Repr

/-- The database state: both tables, rows in insertion order. -/
structure Store where
  customers : List Customer
  wallets : List Wallet
deriving DecidableEq, Repr

def emptyStore : Store := ⟨[], []⟩

/-- JS truthiness of an optional string (`undefined`, `null` and `""` are
falsy). -/
def isTruthy : Option String → Bool
  | none => false
  | some s => s != ""

/-- JS `a || b` on optional strings. -/
def jsOr (a b : Option String) : Option String :=
  if isTruthy a then a else b

/-- JS `a || null` on optional strings. -/
def jsOrNull (a : Option String) : Option String :=
  if isTruthy a then a else none

/-- `COOLDOWN_MS = 2 * 60 * 1000` (index.js line 269). -/
def COOLDOWN_MS : Int := 2 * 60 * 1000

/-- The fixed congratulatory reward string (index.js line 490). -/
def rewardText : String :=
  "🎉 Congratulations — you’ve earned a FREE pasta for being a loyal customer!"

/-- `isValidStaticToken(t) = t && String(t) === String(QR_SECRET)`
(index.js lines 271-273). -/
def isValidStaticToken (secret : String) (t : Option String) : Bool :=
  match t with
  | none => false
  | some s => s != "" && s == secret

/-- `getCustomerByIdentifier`: `SELECT id,name,email,phone FROM customers
WHERE email = ? OR phone = ? LIMIT 1` (index.js lines 367-375).  SQL `=`
against a non-NULL parameter never matches a NULL column. -/
def customerMatches (ident : String) (c : Customer) : Bool :=
  c.email == some ident || c.phone == some ident

def getCustomerByIdentifier (st : Store) (ident : String) : Option Customer :=
  st.customers.find? (customerMatches ident)

/-- `createCustomer`: `INSERT INTO customers ...` (index.js lines 376-382). -/
def createCustomer (st : Store) (c : Customer) : Store :=
  { st with customers := st.customers ++ [c] }

/-- `getWallet`: `SELECT ... FROM wallets WHERE customer_id = ? LIMIT 1`
(index.js lines 383-391). -/
def getWallet (st : Store) (cid : String) : Option Wallet :=
  st.wallets.find? (fun w => w.customer_id == cid)

/-- `createWallet`: `INSERT INTO wallets (customer_id, stamps,
last_redeemed_at, last_stamped_at) VALUES (?, 0, NULL, NULL)`
(index.js lines 392-398). -/
def createWallet (st : Store) (cid : String) : Store :=
  { st with wallets := st.wallets ++ [⟨cid, 0, none, none⟩] }

/-- `updateWallet`: `UPDATE wallets SET stamps=?, last_redeemed_at=?,
last_stamped_at=? WHERE customer_id = ?` (index.js lines 399-406).
The JS `lastRedeemedAt || null` / `lastStampedAt || null` coalescing is the
identity on the embedded `Option Nat` timestamps (ISO strings are truthy
exactly when present). -/
def updateWallet (st : Store) (cid : String) (stamps : Nat)
    (lr ls : Option Nat) : Store :=
  { st with wallets := st.wallets.map (fun w =>
      if w.customer_id == cid then ⟨w.customer_id, stamps, lr, ls⟩ else w) }

/-- `identifier.includes("@")` (index.js lines 455-456), computed over the
character list so that it reduces in the kernel. -/
def hasAtSign (s : String) : Bool := s.data.contains '@'

/-- The customer literal created by the stamp-add route for a never-seen
identifier (index.js lines 451-457): id is the identifier itself, the
identifier is stored as email iff it contains `@`. -/
def mkScanCustomer (ident : String) : Customer :=
  ⟨ident, none,
    if hasAtSign ident then some ident else none,
    if hasAtSign ident then none else some ident⟩

/-- `wallet.last_stamped_at ? Date.parse(wallet.last_stamped_at) : 0`
(index.js line 469). -/
def lastStampedMs (w : Wallet) : Int :=
  match w.last_stamped_at with
  | some t => (t : Int)
  | none => 0

/-- `Math.ceil(x / 1000)` for the nonnegative remainder computed on the
cooldown branch (index.js line 472). -/
def ceilSeconds (x : Int) : Nat := (x.toNat + 999) / 1000

/-- `Math.round(COOLDOWN_MS / 60000)` (index.js line 477). -/
def cooldownMinutes : Nat := COOLDOWN_MS.toNat / 60000

/-- Responses of `POST /api/stamps/add`.  `serverError` stands for the
`catch` → 500 path (unreachable in the embedded fragment). -/
inductive AddStampResp where
  | unauthorized
  | missingIdentifier
  | serverError
  | cooldown (customerId : String) (stamps : Nat)
      (cooldownMinutes : Nat) (secondsLeft : Nat)
  | ok (customerId : String) (stamps : Nat) (redeemed : Bool)
      (rewardMessage : Option String)
deriving DecidableEq, Repr

/-- The reward message carried by a response (`null` on non-`ok` shapes). -/
def rewardOf : AddStampResp → Option String
  | .ok _ _ _ msg => msg
  | _ => none

/-- The stamp count carried by an `ok` response. -/
def okStampsOf : AddStampResp → Option Nat
  | .ok _ n _ _ => some n
  | _ => none

/-- The request body of `POST /api/stamps/add`. -/
structure AddStampReq where
  identifier : Option String
  token : Option String
deriving DecidableEq, Repr

/-- Cooldown check plus the normal award / redemption transition
(index.js lines 467-515), starting from the resolved wallet. -/
def stampCore (now : Nat) (customerId : String) (wallet : Wallet)
    (st : Store) : AddStampResp × Store :=
  let last : Int := lastStampedMs wallet
  let diff : Int := (now : Int) - last
  if diff < COOLDOWN_MS then
    (.cooldown customerId wallet.stamps cooldownMinutes
      (ceilSeconds (COOLDOWN_MS - diff)), st)
  else
    if wallet.stamps < 10 then
      let stamps' := wallet.stamps + 1
      let rewardMessage := if stamps' = 10 then some rewardText else none
      (.ok customerId stamps' false rewardMessage,
        updateWallet st customerId stamps' wallet.last_redeemed_at (some now))
    else
      -- was 10 → next scan resets to 0 (redeemed)
      (.ok customerId 0 true none,
        updateWallet st customerId 0 (some now) (some now))

/-- `POST /api/stamps/add` (index.js lines 443-520): token check,
identifier check, customer auto-creation, wallet auto-creation, then
`stampCore`. -/
def addStampHandler (secret : String) (now : Nat) (req : AddStampReq)
    (st : Store) : AddStampResp × Store :=
  if !(isValidStaticToken secret req.token) then (.unauthorized, st) else
  match req.identifier with
  | none => (.missingIdentifier, st)
  | some ident =>
    if ident = "" then (.missingIdentifier, st) else
    let st1 :=
      match getCustomerByIdentifier st ident with
      | some _ => st
      | none => createCustomer st (mkScanCustomer ident)
    match getCustomerByIdentifier st1 ident with
    | none => (.serverError, st1)
    | some customer =>
      match getWallet st1 customer.id with
      | some wallet => stampCore now customer.id wallet st1
      | none =>
        stampCore now customer.id ⟨customer.id, 0, none, none⟩
          (createWallet st1 customer.id)

/-- The request body of `POST /api/signup`. -/
structure SignupReq where
  name : Option String
  email : Option String
  phone : Option String
deriving DecidableEq, Repr

/-- Responses of `POST /api/signup`. -/
inductive SignupResp where
  | missingIdentifier
  | serverError
  | ok (customer : Customer) (stamps : Nat)
deriving DecidableEq, Repr

/-- `POST /api/signup` (index.js lines 413-440). -/
def signupHandler (req : SignupReq) (st : Store) : SignupResp × Store :=
  let identifier := jsOr req.email req.phone
  if !(isTruthy identifier) then (.missingIdentifier, st) else
  let ident := identifier.getD ""
  let st1 :=
    match getCustomerByIdentifier st ident with
    | some _ => st
    | none =>
      createCustomer st
        ⟨ident, req.name, jsOrNull req.email, jsOrNull req.phone⟩
  match getCustomerByIdentifier st1 ident with
  | none => (.serverError, st1)
  | some customer =>
    match getWallet st1 customer.id with
    | some wallet => (.ok customer wallet.stamps, st1)
    | none => (.ok customer 0, createWallet st1 customer.id)

/-- One public-API operation (the two mutating routes). -/
inductive ApiOp where
  | signup (req : SignupReq)
  | stampAdd (now : Nat) (req : AddStampReq)
deriving DecidableEq, Repr

def applyOp (secret : String) (st : Store) : ApiOp → Store
  | .signup req => (signupHandler req st).2
  | .stampAdd now req => (addStampHandler secret now req st).2

def runOps (secret : String) (ops : List ApiOp) (st : Store) : Store :=
  ops.foldl (applyOp secret) st

example : (signupHandler ⟨none, some "a@x.com", none⟩ emptyStore).1 =
    .ok ⟨"a@x.com", none, some "a@x.com", none⟩ 0 := by decide

example :
    (addStampHandler "PASTA123" 120000 ⟨some "a@x.com", some "PASTA123"⟩
      emptyStore).1 = .ok "a@x.com" 1 false none := by decide

/-! ## Lemma kit: list scans, table frames -/

theorem find?_append_singleton {α : Type} {p : α → Bool} {l : List α}
    (a : α) (h : l.find? p = none) :
    (l ++ [a]).find? p = if p a then some a else none := by
  induction l with
  | nil => cases hp : p a <;> simp [List.find?, hp]
  | cons x xs ih =>
    cases hx : p x with
    | true => simp [List.find?, hx] at h
    | false =>
      simp only [List.find?, hx] at h
      rw [List.cons_append]
      simp only [List.find?, hx]
      exact ih h

theorem find?_map_update (cid : String) (s : Nat) (lr ls : Option Nat)
    (l : List Wallet) :
    (l.map (fun w => if w.customer_id == cid
        then (⟨w.customer_id, s, lr, ls⟩ : Wallet) else w)).find?
        (fun w => w.customer_id == cid) =
      (l.find? (fun w => w.customer_id == cid)).map
        (fun w => ⟨w.customer_id, s, lr, ls⟩) := by
  induction l with
  | nil => rfl
  | cons w ws ih =>
    cases hw : (w.customer_id == cid) with
    | true => simp [List.find?, hw]
    | false =>
      rw [List.map_cons,
        if_neg (show ¬ (w.customer_id == cid) = true by simp [hw])]
      simp only [List.find?, hw]
      exact ih

theorem getWallet_updateWallet_self (st : Store) (cid : String) (s : Nat)
    (lr ls : Option Nat) :
    getWallet (updateWallet st cid s lr ls) cid =
      (getWallet st cid).map (fun w => ⟨w.customer_id, s, lr, ls⟩) :=
  find?_map_update cid s lr ls st.wallets

theorem getWallet_createWallet_self (st : Store) (cid : String)
    (h : getWallet st cid = none) :
    getWallet (createWallet st cid) cid = some ⟨cid, 0, none, none⟩ := by
  unfold getWallet createWallet at *
  rw [find?_append_singleton _ h]
  simp

theorem getWallet_some_cid {st : Store} {cid : String} {w : Wallet}
    (h : getWallet st cid = some w) : w.customer_id = cid := by
  have := List.find?_some h
  simpa using this

theorem customers_createWallet (st : Store) (cid : String) :
    (createWallet st cid).customers = st.customers := rfl

theorem customers_updateWallet (st : Store) (cid : String) (s : Nat)
    (lr ls : Option Nat) :
    (updateWallet st cid s lr ls).customers = st.customers := rfl

theorem wallets_createCustomer (st : Store) (c : Customer) :
    (createCustomer st c).wallets = st.wallets := rfl

theorem getCustomer_createWallet (st : Store) (cid ident : String) :
    getCustomerByIdentifier (createWallet st cid) ident =
      getCustomerByIdentifier st ident := rfl

theorem getCustomer_updateWallet (st : Store) (cid : String) (s : Nat)
    (lr ls : Option Nat) (ident : String) :
    getCustomerByIdentifier (updateWallet st cid s lr ls) ident =
      getCustomerByIdentifier st ident := rfl

theorem getWallet_createCustomer (st : Store) (c : Customer) (cid : String) :
    getWallet (createCustomer st c) cid = getWallet st cid := rfl

theorem getCustomer_createCustomer_of_none (st : Store) (ident : String)
    (c : Customer) (h : getCustomerByIdentifier st ident = none)
    (hc : customerMatches ident c = true) :
    getCustomerByIdentifier (createCustomer st c) ident = some c := by
  unfold getCustomerByIdentifier createCustomer at *
  rw [find?_append_singleton _ h, if_pos hc]

theorem mkScanCustomer_matches (ident : String) :
    customerMatches ident (mkScanCustomer ident) = true := by
  unfold customerMatches mkScanCustomer
  by_cases h : hasAtSign ident = true <;> simp [h]

/-! ## Lemma kit: handler branches -/

theorem addStamp_unauthorized (secret : String) (now : Nat)
    (req : AddStampReq) (st : Store)
    (h : isValidStaticToken secret req.token = false) :
    addStampHandler secret now req st = (.unauthorized, st) := by
  simp [addStampHandler, h]

theorem addStamp_resolved (secret : String) (now : Nat) (req : AddStampReq)
    (ident : String) (st : Store) (c : Customer) (w : Wallet)
    (htok : isValidStaticToken secret req.token = true)
    (hid : req.identifier = some ident) (hne : ident ≠ "")
    (hc : getCustomerByIdentifier st ident = some c)
    (hw : getWallet st c.id = some w) :
    addStampHandler secret now req st = stampCore now c.id w st := by
  simp [addStampHandler, htok, hid, hne, hc, hw]

theorem stampCore_cooldown (now : Nat) (cid : String) (w : Wallet)
    (st : Store) (h : (now : Int) - lastStampedMs w < COOLDOWN_MS) :
    stampCore now cid w st =
      (.cooldown cid w.stamps cooldownMinutes
        (ceilSeconds (COOLDOWN_MS - ((now : Int) - lastStampedMs w))), st) := by
  unfold stampCore
  rw [if_pos h]

theorem stampCore_accrual (now : Nat) (cid : String) (w : Wallet) (st : Store)
    (hcool : ¬ ((now : Int) - lastStampedMs w < COOLDOWN_MS))
    (hlt : w.stamps < 10) :
    stampCore now cid w st =
      (.ok cid (w.stamps + 1) false
        (if w.stamps + 1 = 10 then some rewardText else none),
       updateWallet st cid (w.stamps + 1) w.last_redeemed_at (some now)) := by
  unfold stampCore
  rw [if_neg hcool, if_pos hlt]

theorem stampCore_redeem (now : Nat) (cid : String) (w : Wallet) (st : Store)
    (hcool : ¬ ((now : Int) - lastStampedMs w < COOLDOWN_MS))
    (hge : ¬ (w.stamps < 10)) :
    stampCore now cid w st =
      (.ok cid 0 true none, updateWallet st cid 0 (some now) (some now)) := by
  unfold stampCore
  rw [if_neg hcool, if_neg hge]

/-! ## Lemma kit: ceiling arithmetic -/

theorem ceilSeconds_eq_ceil (d : Int) (hd : 0 ≤ d) :
    ceilSeconds d = ⌈((d : ℚ)) / 1000⌉₊ := by
  obtain ⟨m, rfl⟩ : ∃ m : ℕ, d = m := ⟨d.toNat, (Int.toNat_of_nonneg hd).symm⟩
  unfold ceilSeconds
  rw [Int.toNat_natCast]
  have hcast : (((m : Int) : ℚ)) = (m : ℚ) := by push_cast; ring
  rw [hcast]
  rcases Nat.eq_zero_or_pos m with hm | hm
  · subst hm; simp
  · symm
    rw [Nat.ceil_eq_iff (by omega : (m + 999) / 1000 ≠ 0)]
    constructor
    · rw [lt_div_iff₀ (by norm_num : (0 : ℚ) < 1000)]
      have h2 : ((m + 999) / 1000 - 1) * 1000 < m := by omega
      exact_mod_cast h2
    · rw [div_le_iff₀ (by norm_num : (0 : ℚ) < 1000)]
      have h3 : m ≤ ((m + 999) / 1000) * 1000 := by omega
      exact_mod_cast h3

/-! ## Claim C1 — the §4.4 stamp transition -/

/-- C1: for every wallet, a successful (authorized, identifier present,
cooldown elapsed) stamp-add performs exactly the §4.4 transition: below 9
stamps it increments with `redeemed = false` and a null reward message; at
exactly 9 it moves to 10 with `redeemed = false` and the fixed
congratulatory reward message; at 10 or more it resets to 0 with
`redeemed = true`, a null reward message, and `last_redeemed_at = now`. -/
theorem c1_stamp_transition (secret : String) (now : Nat) (req : AddStampReq)
    (ident : String) (st : Store) (c : Customer) (w : Wallet)
    (htok : isValidStaticToken secret req.token = true)
    (hid : req.identifier = some ident) (hne : ident ≠ "")
    (hc : getCustomerByIdentifier st ident = some c)
    (hw : getWallet st c.id = some w)
    (hcool : ¬ ((now : Int) - lastStampedMs w < COOLDOWN_MS)) :
    (w.stamps < 9 →
      addStampHandler secret now req st =
        (.ok c.id (w.stamps + 1) false none,
         updateWallet st c.id (w.stamps + 1) w.last_redeemed_at (some now))) ∧
    (w.stamps = 9 →
      addStampHandler secret now req st =
        (.ok c.id 10 false (some rewardText),
         updateWallet st c.id 10 w.last_redeemed_at (some now))) ∧
    (10 ≤ w.stamps →
      addStampHandler secret now req st =
        (.ok c.id 0 true none,
         updateWallet st c.id 0 (some now) (some now))) := by
  have hres := addStamp_resolved secret now req ident st c w htok hid hne hc hw
  refine ⟨?_, ?_, ?_⟩
  · intro h9
    rw [hres, stampCore_accrual now c.id w st hcool (by omega)]
    have hno : ¬ (w.stamps + 1 = 10) := by omega
    simp [hno]
  · intro h9
    rw [hres, stampCore_accrual now c.id w st hcool (by omega)]
    simp [h9]
  · intro h10
    rw [hres, stampCore_redeem now c.id w st hcool (by omega)]

def c1St : Store := ⟨[⟨"a", none, some "a", none⟩], [⟨"a", 9, none, none⟩]⟩

def c1Cust : Customer := ⟨"a", none, some "a", none⟩

def c1Wal : Wallet := ⟨"a", 9, none, none⟩

theorem c1_witness :
    isValidStaticToken "s" (some "s") = true ∧
    getCustomerByIdentifier c1St "a" = some c1Cust ∧
    getWallet c1St c1Cust.id = some c1Wal ∧
    ¬ ((120000 : Int) - lastStampedMs c1Wal < COOLDOWN_MS) ∧
    (c1Wal.stamps = 9 →
      addStampHandler "s" 120000 ⟨some "a", some "s"⟩ c1St =
        (.ok c1Cust.id 10 false (some rewardText),
         updateWallet c1St c1Cust.id 10 c1Wal.last_redeemed_at
           (some 120000))) :=
  ⟨by decide, by decide, by decide, by decide,
    (c1_stamp_transition "s" 120000 ⟨some "a", some "s"⟩ "a" c1St c1Cust c1Wal
      (by decide) rfl (by decide) (by decide) (by decide) (by decide)).2.1⟩

/-! ## Claim C8 — timestamp frame effects of the write branches -/

/-- C8: on every stamp-add branch that writes the wallet, `last_stamped_at`
is set to `now`; `last_redeemed_at` is preserved on both accrual branches
(`stamps < 10` before the write) and set to `now` exactly on the redemption
branch (`stamps ≥ 10` before the write). -/
theorem c8_frame (now : Nat) (cid : String) (w : Wallet) (st : Store)
    (hw : getWallet st cid = some w)
    (hcool : ¬ ((now : Int) - lastStampedMs w < COOLDOWN_MS)) :
    ∃ w', getWallet (stampCore now cid w st).2 cid = some w' ∧
      w'.last_stamped_at = some now ∧
      (w.stamps < 10 → w'.last_redeemed_at = w.last_redeemed_at) ∧
      (10 ≤ w.stamps → w'.last_redeemed_at = some now) := by
  by_cases hlt : w.stamps < 10
  · refine ⟨⟨w.customer_id, w.stamps + 1, w.last_redeemed_at, some now⟩,
      ?_, rfl, fun _ => rfl, fun h => absurd h (by omega)⟩
    rw [stampCore_accrual now cid w st hcool hlt]
    show getWallet (updateWallet st cid (w.stamps + 1)
      w.last_redeemed_at (some now)) cid = _
    rw [getWallet_updateWallet_self, hw, Option.map_some']
  · refine ⟨⟨w.customer_id, 0, some now, some now⟩,
      ?_, rfl, fun h => absurd h hlt, fun _ => rfl⟩
    rw [stampCore_redeem now cid w st hcool hlt]
    show getWallet (updateWallet st cid 0 (some now) (some now)) cid = _
    rw [getWallet_updateWallet_self, hw, Option.map_some']

def c8St : Store := ⟨[], [⟨"a", 3, some 5, some 100⟩]⟩

def c8Wal : Wallet := ⟨"a", 3, some 5, some 100⟩

theorem c8_witness :
    getWallet c8St "a" = some c8Wal ∧
    ¬ ((130000 : Int) - lastStampedMs c8Wal < COOLDOWN_MS) ∧
    (∃ w', getWallet (stampCore 130000 "a" c8Wal c8St).2 "a" = some w' ∧
      w'.last_stamped_at = some 130000 ∧
      (c8Wal.stamps < 10 → w'.last_redeemed_at = c8Wal.last_redeemed_at) ∧
      (10 ≤ c8Wal.stamps → w'.last_redeemed_at = some 130000)) :=
  ⟨by decide, by decide, c8_frame 130000 "a" c8Wal c8St (by decide) (by decide)⟩

/-! ## Claim C4 — an invalid token changes nothing -/

/-- C4: for every stamp-add request whose presented token does not equal the
configured shared secret, the response is the authorization failure and no
state changes: the customers table is unchanged (no row created even for a
never-seen identifier) and every wallet is unchanged. -/
theorem c4_invalid_token_no_effect (secret : String) (now : Nat)
    (req : AddStampReq) (st : Store) (h : req.token ≠ some secret) :
    addStampHandler secret now req st = (.unauthorized, st) ∧
    (addStampHandler secret now req st).2.customers = st.customers ∧
    ∀ cid, getWallet (addStampHandler secret now req st).2 cid =
      getWallet st cid := by
  have hv : isValidStaticToken secret req.token = false := by
    cases ht : req.token with
    | none => rfl
    | some s =>
      have hs : s ≠ secret := fun e => h (by rw [ht, e])
      simp [isValidStaticToken, hs]
  have hu := addStamp_unauthorized secret now req st hv
  exact ⟨hu, by rw [hu], fun cid => by rw [hu]⟩

theorem c4_witness :
    (⟨some "a", none⟩ : AddStampReq).token ≠ some "s" ∧
    addStampHandler "s" 0 ⟨some "a", none⟩ emptyStore =
      (.unauthorized, emptyStore) :=
  ⟨by decide,
    (c4_invalid_token_no_effect "s" 0 ⟨some "a", none⟩ emptyStore
      (by decide)).1⟩

/-! ## Claim C10 — authorization is evaluated first -/

/-- C10: on stamp-add, token authorization is evaluated before identifier
validation and before any storage access: any request with an invalid
(absent, falsy, or mismatching) token gets the authorization failure with
the store returned untouched — for every store, so the outcome depends on
no stored data — even when the identifier is missing; and a
missing-identifier validation failure can only be observed when the token
is valid. -/
theorem c10_auth_precedes :
    (∀ (secret : String) (now : Nat) (req : AddStampReq) (st : Store),
      isValidStaticToken secret req.token = false →
      addStampHandler secret now req st = (.unauthorized, st)) ∧
    (∀ (secret : String) (now : Nat) (req : AddStampReq) (st : Store),
      (addStampHandler secret now req st).1 = .missingIdentifier →
      isValidStaticToken secret req.token = true) := by
  refine ⟨fun secret now req st h => addStamp_unauthorized secret now req st h,
    ?_⟩
  intro secret now req st h
  cases hv : isValidStaticToken secret req.token with
  | true => rfl
  | false =>
    rw [addStamp_unauthorized secret now req st hv] at h
    simp at h

theorem c10_witness :
    isValidStaticToken "s" (some "x") = false ∧
    addStampHandler "s" 0 ⟨none, some "x"⟩ emptyStore =
      (.unauthorized, emptyStore) :=
  ⟨by decide, c10_auth_precedes.1 "s" 0 ⟨none, some "x"⟩ emptyStore (by decide)⟩

/-! ## Claim C7 — customer auto-creation on first authorized scan -/

/-- C7: when an authorized stamp-add resolves an identifier with no existing
customer, it creates a customer whose id equals the identifier string, with
the identifier stored as email iff it contains `@` and as phone otherwise,
and a paired wallet with 0 stamps exists before the transition runs — so the
transition yields stamp count 1. -/
theorem c7_auto_creation (secret : String) (now : Nat) (req : AddStampReq)
    (ident : String) (st : Store)
    (htok : isValidStaticToken secret req.token = true)
    (hid : req.identifier = some ident) (hne : ident ≠ "")
    (hc : getCustomerByIdentifier st ident = none)
    (hw : getWallet st ident = none)
    (hnow : 120000 ≤ now) :
    getCustomerByIdentifier (addStampHandler secret now req st).2 ident =
      some (mkScanCustomer ident) ∧
    (mkScanCustomer ident).id = ident ∧
    (addStampHandler secret now req st).1 = .ok ident 1 false none ∧
    getWallet (addStampHandler secret now req st).2 ident =
      some ⟨ident, 1, none, some now⟩ := by
  have hmk := mkScanCustomer_matches ident
  have hc1 : getCustomerByIdentifier (createCustomer st (mkScanCustomer ident))
      ident = some (mkScanCustomer ident) :=
    getCustomer_createCustomer_of_none st ident _ hc hmk
  have hw1 : getWallet (createCustomer st (mkScanCustomer ident)) ident =
      none := hw
  have hid2 : (mkScanCustomer ident).id = ident := rfl
  have hstep : addStampHandler secret now req st =
      stampCore now ident ⟨ident, 0, none, none⟩
        (createWallet (createCustomer st (mkScanCustomer ident)) ident) := by
    simp [addStampHandler, htok, hid, hne, hc, hc1, hid2, hw1]
  have hcool : ¬ ((now : Int) -
      lastStampedMs ⟨ident, 0, none, none⟩ < COOLDOWN_MS) := by
    simp only [lastStampedMs, COOLDOWN_MS]
    omega
  have hsc := stampCore_accrual now ident ⟨ident, 0, none, none⟩
    (createWallet (createCustomer st (mkScanCustomer ident)) ident) hcool
    (by norm_num)
  simp only [show (⟨ident, 0, none, none⟩ : Wallet).stamps = 0 from rfl] at hsc
  norm_num at hsc
  refine ⟨?_, rfl, ?_, ?_⟩
  · rw [hstep, hsc]
    exact hc1
  · rw [hstep, hsc]
  · rw [hstep, hsc]
    show getWallet (updateWallet
      (createWallet (createCustomer st (mkScanCustomer ident)) ident)
      ident 1 none (some now)) ident = _
    rw [getWallet_updateWallet_self, getWallet_createWallet_self _ _ hw1,
      Option.map_some']

theorem c7_witness :
    isValidStaticToken "s" (some "s") = true ∧
    getCustomerByIdentifier emptyStore "a@x.com" = none ∧
    getWallet emptyStore "a@x.com" = none ∧
    (120000 : Nat) ≤ 120000 ∧
    (addStampHandler "s" 120000 ⟨some "a@x.com", some "s"⟩ emptyStore).1 =
      .ok "a@x.com" 1 false none :=
  ⟨by decide, rfl, rfl, by decide,
    (c7_auto_creation "s" 120000 ⟨some "a@x.com", some "s"⟩ "a@x.com"
      emptyStore (by decide) rfl (by decide) rfl rfl (by decide)).2.2.1⟩

/-! ## Claim C3 — the cooldown guard -/

/-- C3: with a realistic clock (`now` at least one cooldown after the
epoch, which the code's missing-timestamp-as-0 convention needs), a
stamp-add is allowed iff `last_stamped_at` is absent or at least 120
seconds old; when disallowed, nothing is mutated and the response reports
the current stamp count together with
`secondsLeft = ceil((COOLDOWN - elapsed)/1000)`; and a second stamp-add
within the cooldown window performs no further mutation and reports
`cooldown`. -/
theorem c3_cooldown_guard (secret : String) (now now2 : Nat)
    (req : AddStampReq) (ident : String) (st : Store) (c : Customer)
    (w : Wallet)
    (htok : isValidStaticToken secret req.token = true)
    (hid : req.identifier = some ident) (hne : ident ≠ "")
    (hc : getCustomerByIdentifier st ident = some c)
    (hw : getWallet st c.id = some w)
    (hnow : 120000 ≤ now) :
    (¬ ((now : Int) - lastStampedMs w < COOLDOWN_MS) ↔
      (w.last_stamped_at = none ∨
        ∃ t, w.last_stamped_at = some t ∧ t + 120000 ≤ now)) ∧
    (((now : Int) - lastStampedMs w < COOLDOWN_MS) →
      addStampHandler secret now req st =
        (.cooldown c.id w.stamps cooldownMinutes
          (ceilSeconds (COOLDOWN_MS - ((now : Int) - lastStampedMs w))), st) ∧
      ceilSeconds (COOLDOWN_MS - ((now : Int) - lastStampedMs w)) =
        ⌈((COOLDOWN_MS - ((now : Int) - lastStampedMs w) : Int) : ℚ) /
          1000⌉₊) ∧
    ((¬ ((now : Int) - lastStampedMs w < COOLDOWN_MS)) → now ≤ now2 →
      (now2 : Int) - (now : Int) < COOLDOWN_MS →
      (addStampHandler secret now2 req
        (addStampHandler secret now req st).2).2 =
        (addStampHandler secret now req st).2 ∧
      ∃ s sl, (addStampHandler secret now2 req
        (addStampHandler secret now req st).2).1 =
          .cooldown c.id s cooldownMinutes sl) := by
  have hres := addStamp_resolved secret now req ident st c w htok hid hne hc hw
  have hCval : COOLDOWN_MS = 120000 := by norm_num [COOLDOWN_MS]
  refine ⟨?_, ?_, ?_⟩
  · cases hls : w.last_stamped_at with
    | none =>
      constructor
      · intro _; exact Or.inl rfl
      · intro _
        simp only [lastStampedMs, hls, hCval]
        omega
    | some t =>
      constructor
      · intro h
        refine Or.inr ⟨t, rfl, ?_⟩
        simp only [lastStampedMs, hls, hCval] at h
        omega
      · rintro (h | ⟨t', ht', hle⟩)
        · cases h
        · have ht'' : t = t' := by injection ht'
          subst ht''
          simp only [lastStampedMs, hls, hCval]
          omega
  · intro hcd
    refine ⟨by rw [hres, stampCore_cooldown now c.id w st hcd], ?_⟩
    exact ceilSeconds_eq_ceil _ (by omega)
  · intro hcool hle12 hlt2
    by_cases hlt : w.stamps < 10
    · have h1 := hres.trans (stampCore_accrual now c.id w st hcool hlt)
      have h2 : (addStampHandler secret now req st).2 =
          updateWallet st c.id (w.stamps + 1) w.last_redeemed_at (some now) :=
        by rw [h1]
      have hc2 : getCustomerByIdentifier
          (updateWallet st c.id (w.stamps + 1) w.last_redeemed_at (some now))
          ident = some c := hc
      have hw2 : getWallet
          (updateWallet st c.id (w.stamps + 1) w.last_redeemed_at (some now))
          c.id = some ⟨w.customer_id, w.stamps + 1, w.last_redeemed_at,
            some now⟩ := by
        rw [getWallet_updateWallet_self, hw, Option.map_some']
      have hres2 := addStamp_resolved secret now2 req ident
        (updateWallet st c.id (w.stamps + 1) w.last_redeemed_at (some now))
        c _ htok hid hne hc2 hw2
      have hcd2 : (now2 : Int) - lastStampedMs ⟨w.customer_id, w.stamps + 1,
          w.last_redeemed_at, some now⟩ < COOLDOWN_MS := by
        simp only [lastStampedMs]
        omega
      have h3 := hres2.trans (stampCore_cooldown now2 c.id _ _ hcd2)
      rw [h2, h3]
      exact ⟨rfl, _, _, rfl⟩
    · have h1 := hres.trans (stampCore_redeem now c.id w st hcool hlt)
      have h2 : (addStampHandler secret now req st).2 =
          updateWallet st c.id 0 (some now) (some now) := by rw [h1]
      have hc2 : getCustomerByIdentifier
          (updateWallet st c.id 0 (some now) (some now)) ident = some c := hc
      have hw2 : getWallet (updateWallet st c.id 0 (some now) (some now))
          c.id = some ⟨w.customer_id, 0, some now, some now⟩ := by
        rw [getWallet_updateWallet_self, hw, Option.map_some']
      have hres2 := addStamp_resolved secret now2 req ident
        (updateWallet st c.id 0 (some now) (some now)) c _ htok hid hne
        hc2 hw2
      have hcd2 : (now2 : Int) - lastStampedMs ⟨w.customer_id, 0, some now,
          some now⟩ < COOLDOWN_MS := by
        simp only [lastStampedMs]
        omega
      have h3 := hres2.trans (stampCore_cooldown now2 c.id _ _ hcd2)
      rw [h2, h3]
      exact ⟨rfl, _, _, rfl⟩

def c3St : Store := ⟨[⟨"a", none, some "a", none⟩], [⟨"a", 3, none,
  some 100000⟩]⟩

def c3Cust : Customer := ⟨"a", none, some "a", none⟩

def c3Wal : Wallet := ⟨"a", 3, none, some 100000⟩

theorem c3_witness :
    isValidStaticToken "s" (some "s") = true ∧
    getCustomerByIdentifier c3St "a" = some c3Cust ∧
    getWallet c3St c3Cust.id = some c3Wal ∧
    (120000 : Nat) ≤ 220000 ∧
    (¬ ((220000 : Int) - lastStampedMs c3Wal < COOLDOWN_MS) ↔
      (c3Wal.last_stamped_at = none ∨
        ∃ t, c3Wal.last_stamped_at = some t ∧ t + 120000 ≤ 220000)) :=
  ⟨by decide, by decide, by decide, by decide,
    (c3_cooldown_guard "s" 220000 0 ⟨some "a", some "s"⟩ "a" c3St c3Cust
      c3Wal (by decide) rfl (by decide) (by decide) (by decide)
      (by decide)).1⟩

/-! ## Claim C5 — idempotent signup -/

theorem signup_new_matches (nm a b : Option String)
    (ht : isTruthy (jsOr a b) = true) :
    customerMatches ((jsOr a b).getD "")
      ⟨(jsOr a b).getD "", nm, jsOrNull a, jsOrNull b⟩ = true := by
  cases a with
  | none =>
    cases b with
    | none => simp [jsOr, isTruthy] at ht
    | some p =>
      simp only [jsOr, isTruthy, jsOrNull] at ht ⊢
      simp_all [customerMatches]
  | some e =>
    by_cases he : (e != "") = true
    · simp [jsOr, jsOrNull, isTruthy, customerMatches, he]
    · cases b with
      | none =>
        simp [jsOr, isTruthy, Bool.not_eq_true] at ht he
        simp_all
      | some p =>
        simp only [jsOr, jsOrNull, isTruthy, customerMatches, he] at ht ⊢
        simp_all

/-- C5: signup is idempotent — if a signup returns customer `c` with stamp
count `n`, running the same signup again on the resulting store changes
nothing and returns the same customer and the same stamp count. -/
theorem c5_signup_idempotent (req : SignupReq) (st : Store) (c : Customer)
    (n : Nat) (h : (signupHandler req st).1 = .ok c n) :
    signupHandler req (signupHandler req st).2 =
      (.ok c n, (signupHandler req st).2) := by
  cases ht : isTruthy (jsOr req.email req.phone) with
  | false => simp [signupHandler, ht] at h
  | true =>
    cases hg : getCustomerByIdentifier st ((jsOr req.email req.phone).getD "")
      with
    | some c0 =>
      cases hwal : getWallet st c0.id with
      | some w0 =>
        have hfst : signupHandler req st = (.ok c0 w0.stamps, st) := by
          simp [signupHandler, ht, hg, hwal]
        rw [hfst] at h ⊢
        simp only at h
        cases h
        rw [hfst]
      | none =>
        have hfst : signupHandler req st =
            (.ok c0 0, createWallet st c0.id) := by
          simp [signupHandler, ht, hg, hwal]
        rw [hfst] at h ⊢
        simp only at h
        cases h
        have hg2 : getCustomerByIdentifier (createWallet st c.id)
            ((jsOr req.email req.phone).getD "") = some c := hg
        have hw2 : getWallet (createWallet st c.id) c.id =
            some ⟨c.id, 0, none, none⟩ :=
          getWallet_createWallet_self st c.id hwal
        simp [signupHandler, ht, hg2, hw2]
    | none =>
      have hmatch := signup_new_matches req.name req.email req.phone ht
      have hg1 : getCustomerByIdentifier
          (createCustomer st ⟨(jsOr req.email req.phone).getD "", req.name,
            jsOrNull req.email, jsOrNull req.phone⟩)
          ((jsOr req.email req.phone).getD "") =
          some ⟨(jsOr req.email req.phone).getD "", req.name,
            jsOrNull req.email, jsOrNull req.phone⟩ :=
        getCustomer_createCustomer_of_none st _ _ hg hmatch
      cases hwal : getWallet st ((jsOr req.email req.phone).getD "") with
      | some w0 =>
        have hw1 : getWallet
            (createCustomer st ⟨(jsOr req.email req.phone).getD "", req.name,
              jsOrNull req.email, jsOrNull req.phone⟩)
            ((jsOr req.email req.phone).getD "") = some w0 := hwal
        have hfst : signupHandler req st = (.ok ⟨(jsOr req.email
            req.phone).getD "", req.name, jsOrNull req.email,
            jsOrNull req.phone⟩ w0.stamps,
            createCustomer st ⟨(jsOr req.email req.phone).getD "", req.name,
              jsOrNull req.email, jsOrNull req.phone⟩) := by
          simp [signupHandler, ht, hg, hg1, hw1]
        rw [hfst] at h ⊢
        simp only at h
        cases h
        simp [signupHandler, ht, hg1, hw1]
      | none =>
        have hw1 : getWallet
            (createCustomer st ⟨(jsOr req.email req.phone).getD "", req.name,
              jsOrNull req.email, jsOrNull req.phone⟩)
            ((jsOr req.email req.phone).getD "") = none := hwal
        have hfst : signupHandler req st = (.ok ⟨(jsOr req.email
            req.phone).getD "", req.name, jsOrNull req.email,
            jsOrNull req.phone⟩ 0,
            createWallet (createCustomer st ⟨(jsOr req.email
              req.phone).getD "", req.name, jsOrNull req.email,
              jsOrNull req.phone⟩) ((jsOr req.email req.phone).getD "")) := by
          simp [signupHandler, ht, hg, hg1, hw1]
        rw [hfst] at h ⊢
        simp only at h
        cases h
        have hg2 : getCustomerByIdentifier
            (createWallet (createCustomer st ⟨(jsOr req.email
              req.phone).getD "", req.name, jsOrNull req.email,
              jsOrNull req.phone⟩) ((jsOr req.email req.phone).getD ""))
            ((jsOr req.email req.phone).getD "") =
            some ⟨(jsOr req.email req.phone).getD "", req.name,
              jsOrNull req.email, jsOrNull req.phone⟩ := hg1
        have hw2 : getWallet (createWallet (createCustomer st ⟨(jsOr req.email
              req.phone).getD "", req.name, jsOrNull req.email,
              jsOrNull req.phone⟩) ((jsOr req.email req.phone).getD ""))
            ((jsOr req.email req.phone).getD "") =
            some ⟨(jsOr req.email req.phone).getD "", 0, none, none⟩ :=
          getWallet_createWallet_self _ _ hw1
        simp [signupHandler, ht, hg2, hw2]

theorem c5_witness :
    (signupHandler ⟨none, some "a", none⟩ emptyStore).1 =
      .ok ⟨"a", none, some "a", none⟩ 0 ∧
    signupHandler ⟨none, some "a", none⟩
        (signupHandler ⟨none, some "a", none⟩ emptyStore).2 =
      (.ok ⟨"a", none, some "a", none⟩ 0,
        (signupHandler ⟨none, some "a", none⟩ emptyStore).2) :=
  ⟨by decide,
    c5_signup_idempotent ⟨none, some "a", none⟩ emptyStore
      ⟨"a", none, some "a", none⟩ 0 (by decide)⟩

/-! ## Claim C2 — stamp count bounds over arbitrary operation sequences -/

/-- Every stored wallet holds at most 10 stamps. -/
def stampsBounded (st : Store) : Prop := ∀ w ∈ st.wallets, w.stamps ≤ 10

theorem stampsBounded_updateWallet (st : Store) (cid : String) (s : Nat)
    (lr ls : Option Nat) (hb : stampsBounded st) (hs : s ≤ 10) :
    stampsBounded (updateWallet st cid s lr ls) := by
  intro w hw
  simp only [updateWallet] at hw
  rw [List.mem_map] at hw
  obtain ⟨w0, hw0, hfw⟩ := hw
  by_cases hcid : (w0.customer_id == cid) = true
  · rw [if_pos hcid] at hfw
    cases hfw
    exact hs
  · rw [if_neg hcid] at hfw
    cases hfw
    exact hb w hw0

theorem stampsBounded_createWallet (st : Store) (cid : String)
    (hb : stampsBounded st) : stampsBounded (createWallet st cid) := by
  intro w hw
  simp only [createWallet] at hw
  rw [List.mem_append] at hw
  rcases hw with hw | hw
  · exact hb w hw
  · simp only [List.mem_singleton] at hw
    cases hw
    exact Nat.zero_le 10

theorem stampsBounded_stampCore (now : Nat) (cid : String) (w : Wallet)
    (st : Store) (hb : stampsBounded st) :
    stampsBounded (stampCore now cid w st).2 := by
  simp only [stampCore]
  split
  · exact hb
  · split
    next hlt =>
      exact stampsBounded_updateWallet st cid (w.stamps + 1)
        w.last_redeemed_at (some now) hb (by omega)
    next hlt =>
      exact stampsBounded_updateWallet st cid 0 (some now) (some now) hb
        (by omega)

theorem stampsBounded_addStamp (secret : String) (now : Nat)
    (req : AddStampReq) (st : Store) (hb : stampsBounded st) :
    stampsBounded (addStampHandler secret now req st).2 := by
  cases hv : isValidStaticToken secret req.token with
  | false =>
    rw [addStamp_unauthorized secret now req st hv]
    exact hb
  | true =>
    cases hid : req.identifier with
    | none =>
      have heq : (addStampHandler secret now req st).2 = st := by
        simp [addStampHandler, hv, hid]
      rw [heq]; exact hb
    | some ident =>
      by_cases hne : ident = ""
      · have heq : (addStampHandler secret now req st).2 = st := by
          simp [addStampHandler, hv, hid, hne]
        rw [heq]; exact hb
      · cases hg : getCustomerByIdentifier st ident with
        | some c0 =>
          cases hw : getWallet st c0.id with
          | some w0 =>
            rw [addStamp_resolved secret now req ident st c0 w0 hv hid hne
              hg hw]
            exact stampsBounded_stampCore now c0.id w0 st hb
          | none =>
            have heq : addStampHandler secret now req st =
                stampCore now c0.id ⟨c0.id, 0, none, none⟩
                  (createWallet st c0.id) := by
              simp [addStampHandler, hv, hid, hne, hg, hw]
            rw [heq]
            exact stampsBounded_stampCore _ _ _ _
              (stampsBounded_createWallet st c0.id hb)
        | none =>
          have hg1 : getCustomerByIdentifier
              (createCustomer st (mkScanCustomer ident)) ident =
              some (mkScanCustomer ident) :=
            getCustomer_createCustomer_of_none st ident _ hg
              (mkScanCustomer_matches ident)
          have hb1 : stampsBounded (createCustomer st (mkScanCustomer ident)) :=
            hb
          cases hw : getWallet (createCustomer st (mkScanCustomer ident))
              (mkScanCustomer ident).id with
          | some w0 =>
            have heq : addStampHandler secret now req st =
                stampCore now (mkScanCustomer ident).id w0
                  (createCustomer st (mkScanCustomer ident)) := by
              simp [addStampHandler, hv, hid, hne, hg, hg1, hw]
            rw [heq]
            exact stampsBounded_stampCore _ _ _ _ hb1
          | none =>
            have heq : addStampHandler secret now req st =
                stampCore now (mkScanCustomer ident).id
                  ⟨(mkScanCustomer ident).id, 0, none, none⟩
                  (createWallet (createCustomer st (mkScanCustomer ident))
                    (mkScanCustomer ident).id) := by
              simp [addStampHandler, hv, hid, hne, hg, hg1, hw]
            rw [heq]
            exact stampsBounded_stampCore _ _ _ _
              (stampsBounded_createWallet _ _ hb1)

theorem stampsBounded_signup (req : SignupReq) (st : Store)
    (hb : stampsBounded st) : stampsBounded (signupHandler req st).2 := by
  cases ht : isTruthy (jsOr req.email req.phone) with
  | false =>
    have heq : (signupHandler req st).2 = st := by simp [signupHandler, ht]
    rw [heq]; exact hb
  | true =>
    cases hg : getCustomerByIdentifier st ((jsOr req.email req.phone).getD "")
      with
    | some c0 =>
      cases hw : getWallet st c0.id with
      | some w0 =>
        have heq : (signupHandler req st).2 = st := by
          simp [signupHandler, ht, hg, hw]
        rw [heq]; exact hb
      | none =>
        have heq : (signupHandler req st).2 = createWallet st c0.id := by
          simp [signupHandler, ht, hg, hw]
        rw [heq]
        exact stampsBounded_createWallet st c0.id hb
    | none =>
      have hg1 : getCustomerByIdentifier
          (createCustomer st ⟨(jsOr req.email req.phone).getD "", req.name,
            jsOrNull req.email, jsOrNull req.phone⟩)
          ((jsOr req.email req.phone).getD "") =
          some ⟨(jsOr req.email req.phone).getD "", req.name,
            jsOrNull req.email, jsOrNull req.phone⟩ :=
        getCustomer_createCustomer_of_none st _ _ hg
          (signup_new_matches req.name req.email req.phone ht)
      have hb1 : stampsBounded (createCustomer st ⟨(jsOr req.email
          req.phone).getD "", req.name, jsOrNull req.email,
          jsOrNull req.phone⟩) := hb
      cases hw : getWallet (createCustomer st ⟨(jsOr req.email
          req.phone).getD "", req.name, jsOrNull req.email,
          jsOrNull req.phone⟩) ((jsOr req.email req.phone).getD "") with
      | some w0 =>
        have heq : (signupHandler req st).2 = createCustomer st ⟨(jsOr
            req.email req.phone).getD "", req.name, jsOrNull req.email,
            jsOrNull req.phone⟩ := by
          simp [signupHandler, ht, hg, hg1, hw]
        rw [heq]; exact hb1
      | none =>
        have heq : (signupHandler req st).2 = createWallet (createCustomer st
            ⟨(jsOr req.email req.phone).getD "", req.name,
              jsOrNull req.email, jsOrNull req.phone⟩)
            ((jsOr req.email req.phone).getD "") := by
          simp [signupHandler, ht, hg, hg1, hw]
        rw [heq]
        exact stampsBounded_createWallet _ _ hb1

theorem stampsBounded_applyOp (secret : String) (st : Store) (op : ApiOp)
    (hb : stampsBounded st) : stampsBounded (applyOp secret st op) := by
  cases op with
  | signup req => exact stampsBounded_signup req st hb
  | stampAdd now req => exact stampsBounded_addStamp secret now req st hb

/-- C2 (amended): after every sequence of public-API operations starting
from a fresh store, every stored stamp count satisfies
`0 ≤ stamps ≤ 10` — the count is stored as 10 after the accrual that
completes the card and only returns to 0 on the following scan, so the
claimed strict bound `stamps < 10` does not hold. -/
theorem c2_stamps_at_most_ten (secret : String) (ops : List ApiOp) :
    ∀ w ∈ (runOps secret ops emptyStore).wallets, w.stamps ≤ 10 := by
  have main : ∀ (l : List ApiOp) (st : Store), stampsBounded st →
      stampsBounded (runOps secret l st) := by
    intro l
    induction l with
    | nil => intro st hb; exact hb
    | cons op rest ih =>
      intro st hb
      exact ih _ (stampsBounded_applyOp secret st op hb)
  exact main ops emptyStore (by intro w hw; cases hw)

def c2Req : AddStampReq := ⟨some "a@x.com", some "PASTA123"⟩

def c2Ops : List ApiOp :=
  (List.range 10).map (fun i => .stampAdd (120000 * (i + 1)) c2Req)

/-- C2 counterexample: ten authorized stamp-adds on a fresh identifier
(cooldown elapsed between each) leave a stored wallet with exactly 10
stamps, violating the claimed invariant `stamps < 10`. -/
theorem c2_counterexample :
    ¬ (∀ w ∈ (runOps "PASTA123" c2Ops emptyStore).wallets, w.stamps < 10) := by
  decide

theorem c2_witness :
    (⟨"a@x.com", 1, none, some 120000⟩ : Wallet) ∈
      (runOps "PASTA123" [.stampAdd 120000 c2Req] emptyStore).wallets ∧
    (⟨"a@x.com", 1, none, some 120000⟩ : Wallet).stamps ≤ 10 :=
  ⟨by decide,
    c2_stamps_at_most_ten "PASTA123" [.stampAdd 120000 c2Req]
      ⟨"a@x.com", 1, none, some 120000⟩ (by decide)⟩

/-! ## Claim C6 — the end-to-end concrete scenario -/

def scnSignupReq : SignupReq := ⟨none, some "a@x.com", none⟩

def scnAddReq : AddStampReq := ⟨some "a@x.com", some "PASTA123"⟩

/-- The store after signup for `a@x.com` followed by `k` stamp-adds, the
`i`-th issued at time `120000 * i` (cooldown exactly elapsed each time). -/
def scnStore : Nat → Store
  | 0 => (signupHandler scnSignupReq emptyStore).2
  | Nat.succ k =>
    (addStampHandler "PASTA123" (120000 * (k + 1)) scnAddReq (scnStore k)).2

/-- The response of stamp-add number `k + 1` in the scenario. -/
def scnResp (k : Nat) : AddStampResp :=
  (addStampHandler "PASTA123" (120000 * (k + 1)) scnAddReq (scnStore k)).1

/-- C6 counterexample: in the claimed scenario the 9th stamp-add response
carries no reward message (the reward appears only on the 10th, which
reports 10 stamps), and the 10th stamp-add does not report 0 stamps. -/
theorem c6_counterexample :
    ¬ (rewardOf (scnResp 8) ≠ none ∧ okStampsOf (scnResp 9) = some 0) := by
  decide

/-- C6 (amended): fresh customer `a@x.com` → signup returns 0 stamps → the
first nine stamp-adds (cooldown elapsed between each) return stamps 1..9
with no reward message, the 10th returns 10 stamps with `redeemed = false`
and the non-null reward message, and the 11th returns 0 stamps with
`redeemed = true`. -/
theorem c6_scenario :
    (signupHandler scnSignupReq emptyStore).1 =
      .ok ⟨"a@x.com", none, some "a@x.com", none⟩ 0 ∧
    ((List.range 9).all fun k =>
      decide (scnResp k = .ok "a@x.com" (k + 1) false none)) = true ∧
    scnResp 9 = .ok "a@x.com" 10 false (some rewardText) ∧
    scnResp 10 = .ok "a@x.com" 0 true none := by
  decide

/-! ## Claim C9 — the two storage backends -/

/-- A result row of a statement. -/
inductive DbRow where
  | customerRow (c : Customer)
  | walletRow (w : Wallet)
deriving DecidableEq, Repr

/-- The statements the server issues (index.js lines 367-406). -/
inductive DbStmt where
  | insertCustomer (c : Customer)
  | insertWallet (cid : String)
  | updateWalletRow (cid : String) (stamps : Nat) (lr ls : Option Nat)
  | selectCustomer (ident : String)
  | selectWallet (cid : String)
deriving DecidableEq, Repr

/-- The single-statement semantics both drivers expose, interpreted over
the embedded store.  The spec's premise that the embedded and the networked
store have identical statement semantics is represented by applying both
wrapper families to one engine. -/
def sqlExec : DbStmt → Store → Store × List DbRow
  | .insertCustomer c, st => (createCustomer st c, [])
  | .insertWallet cid, st => (createWallet st cid, [])
  | .updateWalletRow cid s lr ls, st => (updateWallet st cid s lr ls, [])
  | .selectCustomer ident, st =>
    (st, ((getCustomerByIdentifier st ident).map DbRow.customerRow).toList)
  | .selectWallet cid, st =>
    (st, ((getWallet st cid).map DbRow.walletRow).toList)

/-- `dbRun` of the Turso variant (index.js line 305): execute, discard
rows. -/
def dbRun_turso (E : DbStmt → Store → Store × List DbRow) (q : DbStmt)
    (st : Store) : Store := (E q st).1

/-- `dbGetOne` of the Turso variant (index.js lines 306-309):
`r.rows?.[0] || null`. -/
def dbGetOne_turso (E : DbStmt → Store → Store × List DbRow) (q : DbStmt)
    (st : Store) : Option DbRow := (E q st).2.head?

/-- `dbAll` of the Turso variant (index.js lines 310-313): `r.rows || []`. -/
def dbAll_turso (E : DbStmt → Store → Store × List DbRow) (q : DbStmt)
    (st : Store) : List DbRow := (E q st).2

/-- `dbRun` of the SQLite variant (index.js line 342): `prepare(...).run`. -/
def dbRun_sqlite (E : DbStmt → Store → Store × List DbRow) (q : DbStmt)
    (st : Store) : Store := (E q st).1

/-- `dbGetOne` of the SQLite variant (index.js line 343):
`prepare(...).get(args) || null` — the first row or null. -/
def dbGetOne_sqlite (E : DbStmt → Store → Store × List DbRow) (q : DbStmt)
    (st : Store) : Option DbRow := (E q st).2.head?

/-- `dbAll` of the SQLite variant (index.js line 344): all rows. -/
def dbAll_sqlite (E : DbStmt → Store → Store × List DbRow) (q : DbStmt)
    (st : Store) : List DbRow := (E q st).2

/-- Run a sequence of statements with a given `dbRun`. -/
def runStmts (run : DbStmt → Store → Store) (qs : List DbStmt) (st : Store) :
    Store :=
  qs.foldl (fun s q => run q s) st

/-- C9: over any engine with the shared statement semantics, the Turso and
SQLite wrapper families are observationally equivalent — statement by
statement and over every statement sequence — and under the concrete
statement semantics both provide read-your-writes: updating a wallet and
re-reading it on the same connection returns the newly written values. -/
theorem c9_backend_equivalence :
    (∀ (E : DbStmt → Store → Store × List DbRow) (q : DbStmt) (st : Store),
      dbRun_turso E q st = dbRun_sqlite E q st ∧
      dbGetOne_turso E q st = dbGetOne_sqlite E q st ∧
      dbAll_turso E q st = dbAll_sqlite E q st) ∧
    (∀ (E : DbStmt → Store → Store × List DbRow) (qs : List DbStmt)
      (st : Store),
      runStmts (dbRun_turso E) qs st = runStmts (dbRun_sqlite E) qs st) ∧
    (∀ (st : Store) (cid : String) (s : Nat) (lr ls : Option Nat)
      (w : Wallet), getWallet st cid = some w →
      dbGetOne_turso sqlExec (.selectWallet cid)
        (dbRun_turso sqlExec (.updateWalletRow cid s lr ls) st) =
        some (.walletRow ⟨cid, s, lr, ls⟩) ∧
      dbGetOne_sqlite sqlExec (.selectWallet cid)
        (dbRun_sqlite sqlExec (.updateWalletRow cid s lr ls) st) =
        some (.walletRow ⟨cid, s, lr, ls⟩)) := by
  refine ⟨fun E q st => ⟨rfl, rfl, rfl⟩, fun E qs st => rfl, ?_⟩
  intro st cid s lr ls w hw
  have hcid := getWallet_some_cid hw
  have hupd : getWallet (updateWallet st cid s lr ls) cid =
      some ⟨w.customer_id, s, lr, ls⟩ := by
    rw [getWallet_updateWallet_self, hw, Option.map_some']
  constructor <;>
  · show ((sqlExec (.selectWallet cid)
      (updateWallet st cid s lr ls)).2).head? = _
    simp only [sqlExec]
    rw [hupd, hcid]
    rfl

theorem c9_witness :
    getWallet ⟨[], [⟨"w", 2, none, none⟩]⟩ "w" = some ⟨"w", 2, none, none⟩ ∧
    dbGetOne_turso sqlExec (.selectWallet "w")
      (dbRun_turso sqlExec (.updateWalletRow "w" 5 (some 7) (some 9))
        ⟨[], [⟨"w", 2, none, none⟩]⟩) =
      some (.walletRow ⟨"w", 5, some 7, some 9⟩) :=
  ⟨by decide,
    (c9_backend_equivalence.2.2 ⟨[], [⟨"w", 2, none, none⟩]⟩ "w" 5 (some 7)
      (some 9) ⟨"w", 2, none, none⟩ (by decide)).1⟩
